import Mathlib

/-!
Verification of the NotificationSystem repository: a shallow embedding of the
correlation store, the HTTP notification handler, the outcome listener and the
three delivery workers (email, sms, slack), with theorems checking the
claims of the specification against the code.

Conventions of the embedding:
* Go `int` fields are modelled as `Int` (no arithmetic here comes near 64-bit
  overflow; `strconv.Atoi` rejects out-of-range input before it reaches them).
* `uuid.UUID` is modelled as an abstract identifier type (`Nat`); `uuid.New()`
  becomes an explicit generator stream `gen : Nat → UUID` passed to `Add`.
* The Go map `map[uuid.UUID]models.Notification` is modelled as a function
  `UUID → Option Notification`; `time.Now()` becomes an explicit `now : Nat`.
* External collaborators (smtp.SendMail, slack PostMessage, nexmo SendSMS,
  kafka publish) are modelled by their result values, passed as parameters.
* A Go runtime fault (panic) is modelled by an `Option` result being `none`.
-/

/-- Identifier type standing for `uuid.UUID`; `0` plays the zero value `uuid.UUID{}`. -/
abbrev UUID := Nat

/-- Field-for-field model of `models.Notification`, reconstructed from its uses:
the positional literal in `endpoints.go` fixes the field order
`{Mode, Message, MaxRetryAttempts, Recipient, TimeStamp, MessageID, NumOfRepetitions, IsSent, FailReason}`. -/
structure Notification where
  mode : String
  message : String
  maxRetryAttempts : Int
  recipient : String
  timeStamp : Nat
  messageID : UUID
  numOfRepetitions : Int
  isSent : Bool
  failReason : String
deriving DecidableEq

/-- The zero value of the Go struct `models.Notification`, as returned by a map
lookup of a missing key. -/
def zeroNotification : Notification :=
  ⟨"", "", 0, "", 0, 0, 0, false, ""⟩

/-- Model of the map inside `NotificationStore` (`map[uuid.UUID]models.Notification`). -/
abbrev MessageNotification := UUID → Option Notification

/-- The empty store, as created by `make(MessageNotification)`. -/
def emptyStore : MessageNotification := fun _ => none

/-- Go map assignment `ns.data[messageID] = notification`. -/
def mapSet (s : MessageNotification) (id : UUID) (n : Notification) : MessageNotification :=
  fun k => if k = id then some n else s k

namespace NotificationStore

/-- Model of `NotificationStore.Update`: unconditional map assignment. -/
def Update (s : MessageNotification) (messageID : UUID) (n : Notification) : MessageNotification :=
  mapSet s messageID n

/-- Model of `NotificationStore.Delete`: removes the entry if it exists (idempotent). -/
def Delete (s : MessageNotification) (messageID : UUID) : MessageNotification :=
  fun k => if k = messageID then none else s k

/-- Model of `NotificationStore.Get`: a Go map read returns the zero value for a
missing key. -/
def Get (s : MessageNotification) (messageID : UUID) : Notification :=
  (s messageID).getD zeroNotification

/-- Loop body of `NotificationStore.Add`: try candidate ids `gen attempt`,
`gen (attempt+1)`, ... while fuel lasts; on the first free key, stamp the
notification with the time and the id and store it. -/
def addLoop (gen : Nat → UUID) (now : Nat) (s : MessageNotification) (n : Notification) :
    Nat → Nat → Option UUID × MessageNotification
  | _, 0 => (none, s)
  | attempt, fuel + 1 =>
    let messageID := gen attempt
    match s messageID with
    | none => (some messageID, mapSet s messageID { n with timeStamp := now, messageID := messageID })
    | some _ => addLoop gen now s n (attempt + 1) fuel

/-- Model of `NotificationStore.Add`: `maxChecks = 500` and the loop runs for
`attempt = 0, ..., 500`, i.e. 501 candidate ids, before giving up. -/
def Add (gen : Nat → UUID) (now : Nat) (s : MessageNotification) (n : Notification) :
    Option UUID × MessageNotification :=
  addLoop gen now s n 0 501

end NotificationStore

/-- Model of `ReceiveProcessedNotification`: update the store at the received
own message id of the notification. -/
def ReceiveProcessedNotification (s : MessageNotification) (n : Notification) : MessageNotification :=
  NotificationStore.Update s n.messageID n

/-- Model of `Consumer.ConsumeClaim` specialised to a decode function standing for
`json.Unmarshal`: a message that fails to decode is skipped (`continue`), the rest
of the messages are still processed; a decoded message is handed to the callback,
which for the outcome listener is `ReceiveProcessedNotification`. -/
def ConsumeClaim {α : Type} (decode : α → Option Notification) :
    List α → MessageNotification → MessageNotification
  | [], s => s
  | m :: ms, s =>
    match decode m with
    | none => ConsumeClaim decode ms s
    | some n => ConsumeClaim decode ms (ReceiveProcessedNotification s n)

/-- Signals `GetResults` emits on one ticker poll of the store snapshot for the
awaited id: `true` when `IsSent`, then `false` when `FailReason` is nonempty. -/
def pollSignals (n : Notification) : List Bool :=
  (if n.isSent then [true] else []) ++ (if n.failReason ≠ "" then [false] else [])

/-- Digit accumulator underlying the model of `strconv.Atoi`. -/
def digitsValAux : Nat → List Char → Option Nat
  | acc, [] => some acc
  | acc, c :: cs =>
    if c.isDigit then digitsValAux (acc * 10 + (c.toNat - 48)) cs else none

/-- Model of Go `strconv.Atoi`: an optional sign followed by one or more decimal
digits and nothing else, rejected (error) when the value does not fit a 64-bit
`int`. `none` stands for a non-nil error. -/
def goAtoi (s : String) : Option Int :=
  match s.data with
  | [] => none
  | '+' :: rest =>
    match rest, digitsValAux 0 rest with
    | _ :: _, some v => if v ≤ 9223372036854775807 then some (v : Int) else none
    | _, _ => none
  | '-' :: rest =>
    match rest, digitsValAux 0 rest with
    | _ :: _, some v => if v ≤ 9223372036854775808 then some (-(v : Int)) else none
    | _, _ => none
  | cs =>
    match digitsValAux 0 cs with
    | some v => if v ≤ 9223372036854775807 then some (v : Int) else none
    | none => none

/-- The string constant `maxNumberDefaultRetries = "5"`. -/
def maxNumberDefaultRetries : String := "5"

/-- Form fields of a `POST /notification` request; the `PostForm` accessor of `gin` returns the
empty string for an absent field. -/
structure Form where
  mode : String
  message : String
  maxRetryAttempts : String
  recipient : String

/-- Outcome of the validation/register/publish phase of `notificationHandler`
(lines up to the `SendKafkaMessage` call): `responded` is the early JSON reply
when the handler returned before awaiting, `id` the store key obtained from
`Add`, `store` the correlation store after the phase, `published` the messages
handed (successfully or not) to the broker client, as `(topic, value)` pairs. -/
structure Phase1Result where
  responded : Option (Nat × String)
  id : Option UUID
  store : MessageNotification
  published : List (String × Notification)

/-- Model of the validation, registration and publish steps of
`notificationHandler` (endpoints.go). `publishErr` is the result of
`kafkawrapper.SendKafkaMessage`; `envDefaultRecipient` is
`os.Getenv("NS_EMAIL_DEFAULT_RECIPIENT")`. On a publish error the handler
replies 500 and returns; note it does not touch the store again. -/
def notificationHandlerPhase1 (gen : Nat → UUID) (now : Nat) (envDefaultRecipient : String)
    (publishErr : Bool) (form : Form) (s : MessageNotification) : Phase1Result :=
  if form.mode = "" ∨ (form.mode ≠ "email" ∧ form.mode ≠ "sms" ∧ form.mode ≠ "slack") then
    ⟨some (400, "Mode is either blank or not one of the supported modes: \u0027email\u0027, \u0027sms\u0027 or \u0027slack\u0027"), none, s, []⟩
  else if form.message = "" then
    ⟨some (400, "Message is blank"), none, s, []⟩
  else
    match goAtoi (if form.maxRetryAttempts = "" then maxNumberDefaultRetries
                  else form.maxRetryAttempts) with
    | none => ⟨some (400, "\u0027max_retry_attempts\u0027 is not an integer"), none, s, []⟩
    | some maxRetryAttempts =>
      let recipient := if form.mode = "email" ∧ form.recipient = "" then envDefaultRecipient
                       else form.recipient
      let n : Notification :=
        ⟨form.mode, form.message, maxRetryAttempts, recipient, 0, 0, 0, false, ""⟩
      match NotificationStore.Add gen now s n with
      | (none, s1) => ⟨some (500, "Internal server error"), none, s1, []⟩
      | (some messageID, s1) =>
        let published := [(form.mode, NotificationStore.Get s1 messageID)]
        if publishErr then ⟨some (500, "Internal server error"), some messageID, s1, published⟩
        else ⟨none, some messageID, s1, published⟩

/-- Model of the answer/cleanup step of `notificationHandler` (the `select` over
the result channel and the hard timeout, followed by `Delete`): `pollOutcome` is
`some b` when `GetResults` signalled `b`, `none` when the 60-second timer fired
first; `s` is the store as of answer time. Returns status, body and the store
after cleanup. -/
def answerStep (s : MessageNotification) (messageID : UUID) (pollOutcome : Option Bool) :
    Nat × String × MessageNotification :=
  match pollOutcome with
  | some true =>
    (200, "Notification sent successfully!", NotificationStore.Delete s messageID)
  | some false =>
    (408, "Notification sending failed after max number of attempts. Notification service error: "
      ++ (NotificationStore.Get s messageID).failReason,
      NotificationStore.Delete s messageID)
  | none =>
    (408, "Notification sending timed out (60 seconds)", NotificationStore.Delete s messageID)

/-- Failure reason format of `sendEmail` (`fmt.Sprintf("failed to send email with following error %s", err)`). -/
def emailErrMsg (e : String) : String :=
  "failed to send email with following error " ++ e

/-- Failure reason format of `sendSlack`. -/
def slackErrMsg (e : String) : String :=
  "failed to send slack message with following error " ++ e ++ "."

/-- Failure reason format of `sendSms` (error text and the status of the first
response message). -/
def smsErrMsg (e status : String) : String :=
  "failed to send sms with following error " ++ (e ++ (" and status " ++ (status ++ ".")))

/-- The constant `maxEmailRetries = 5` of the email worker. -/
def maxEmailRetries : Int := 5

/-- Model of `sendEmail`: the external `smtp.SendMail` result is `some e`
(failure with error text `e`) or `none` (success). On failure the attempt
counter is incremented and the reason recorded; on success `IsSent` is set. -/
def sendEmail (res : Option String) (n : Notification) : Notification :=
  match res with
  | some e =>
    { n with isSent := false, numOfRepetitions := n.numOfRepetitions + 1,
             failReason := emailErrMsg e }
  | none => { n with isSent := true }

/-- Result of one email worker run: the final notification value, the outcomes
handed to the broker, the number of `sendEmail` calls made, and (ghost
instrumentation) every notification value the worker held after each step. -/
structure EmailRun where
  final : Notification
  published : List Notification
  calls : Nat
  states : List Notification

/-- Model of the retry loop of `emailService`: at most `fuel` iterations (the
source loop runs `emailSendCount = 0, ..., maxEmailRetries`, i.e. 6 times);
`calls` counts `sendEmail` invocations so far and indexes the external attempt
results `att`. The three exits mirror the source: success; caller retry budget
reached (`NumOfRepetitions >= MaxRetryAttempts`); internal hard cap reached
(`NumOfRepetitions == maxEmailRetries`). -/
def emailLoop (att : Nat → Option String) : Nat → Nat → Notification → EmailRun
  | calls, 0, n => ⟨n, [], calls, []⟩
  | calls, fuel + 1, n =>
    let n1 := sendEmail (att calls) n
    if n1.isSent then
      ⟨n1, [n1], calls + 1, [n1]⟩
    else if n1.numOfRepetitions ≥ n1.maxRetryAttempts then
      let n2 := { n1 with
                  isSent := false,
                  failReason := "Too many failed attempts. Last attempt failed with: " ++ n1.failReason }
      ⟨n2, [n2], calls + 1, [n1, n2]⟩
    else if n1.numOfRepetitions = maxEmailRetries then
      let n3 := { n1 with
                  isSent := false,
                  failReason := "Too many failed attempts. Max number of retries reached. Last attempt failed with: " ++ n1.failReason }
      ⟨n3, [n3], calls + 1, [n1, n3]⟩
    else
      let rest := emailLoop att (calls + 1) fuel n1
      ⟨rest.final, rest.published, rest.calls, n1 :: rest.states⟩

/-- Model of `emailService`: run the retry loop from zero calls with the 6
iterations of the source `for` loop. -/
def emailService (att : Nat → Option String) (n : Notification) : EmailRun :=
  emailLoop att 0 6 n

/-- Model of `sendSlack`: like `sendEmail` for the slack API call. -/
def sendSlack (res : Option String) (n : Notification) : Notification :=
  match res with
  | some e =>
    { n with isSent := false, numOfRepetitions := n.numOfRepetitions + 1,
             failReason := slackErrMsg e }
  | none => { n with isSent := true }

/-- Model of `slackService`: one attempt; on failure the worker overwrites the
recorded reason with the constant string before publishing. Returns the final
notification and the outcomes handed to the broker. -/
def slackService (res : Option String) (n : Notification) : Notification × List Notification :=
  let n1 := sendSlack res n
  if n1.isSent then
    (n1, [n1])
  else
    let n2 := { n1 with failReason := "Failed to send Slack with" }
    (n2, [n2])

/-- One message of the nexmo `SendSMSResponse.Messages` slice, keeping the one
field the code reads. -/
structure SmsRespMessage where
  status : String
deriving DecidableEq

/-- Result of the external `client.SMS.SendSMS` call: the message slice of the response and the error (`some e` meaning a non-nil error). -/
structure SmsAttempt where
  messages : List SmsRespMessage
  err : Option String
deriving DecidableEq

/-- Model of `sendSms`: on a non-nil error the code formats the reason from the
error and `smsResponse.Messages[0].Status`; indexing an empty slice is a runtime
fault, modelled as `none`. -/
def sendSms (res : SmsAttempt) (n : Notification) : Option Notification :=
  match res.err with
  | some e =>
    match res.messages with
    | [] => none
    | m :: _ =>
      some { n with isSent := false, numOfRepetitions := n.numOfRepetitions + 1,
                    failReason := smsErrMsg e m.status }
  | none => some { n with isSent := true }

/-- Model of `smsService`: one attempt, publish the resulting notification in
either case (the sent and not-sent branches both publish the value unchanged). -/
def smsService (res : SmsAttempt) (n : Notification) : Option (Notification × List Notification) :=
  match sendSms res n with
  | none => none
  | some n1 => if n1.isSent then some (n1, [n1]) else some (n1, [n1])

/-- Boolean check that `needle` occurs at the head of the character list. -/
def leadsWith : List Char → List Char → Bool
  | [], _ => true
  | _ :: _, [] => false
  | a :: as, b :: bs => a = b && leadsWith as bs

/-- Boolean check that `needle` occurs somewhere in the character list. -/
def subAtAny (needle : List Char) : List Char → Bool
  | [] => leadsWith needle []
  | c :: rest => leadsWith needle (c :: rest) || subAtAny needle rest

/-- Executable substring check on strings. -/
def strHasSub (s sub : String) : Bool :=
  subAtAny sub.data s.data

/-- Substring occurrence as a proposition. -/
def containsSub (s sub : String) : Prop :=
  ∃ pre post, s = pre ++ sub ++ post

theorem mapSet_self (s : MessageNotification) (id : UUID) (n : Notification) :
    mapSet s id n id = some n := by
  simp [mapSet]

theorem mapSet_other (s : MessageNotification) (id k : UUID) (n : Notification)
    (h : k ≠ id) : mapSet s id n k = s k := by
  simp [mapSet, h]

theorem Get_Update_self (s : MessageNotification) (id : UUID) (n : Notification) :
    NotificationStore.Get (NotificationStore.Update s id n) id = n := by
  simp [NotificationStore.Get, NotificationStore.Update, mapSet]

theorem strData_append (a b : String) : (a ++ b).data = a.data ++ b.data := rfl

theorem strOfData_inj (a b : String) (h : a.data = b.data) : a = b := by
  cases a
  cases b
  exact congrArg String.mk h

theorem strAppend_assoc (a b c : String) : (a ++ b) ++ c = a ++ (b ++ c) :=
  strOfData_inj _ _ (by simp [strData_append])

theorem strAppend_ne_empty (a b : String) (h : a.data ≠ []) : a ++ b ≠ "" := by
  intro hc
  apply h
  have hd : a.data ++ b.data = [] := by
    have := congrArg String.data hc
    simpa [strData_append] using this
  exact (List.append_eq_nil.mp hd).1

/-- A sample admitted request used by concrete evaluations. -/
def sampleRequest : Notification := ⟨"email", "hi", 2, "a@b.c", 0, 7, 0, false, ""⟩

/-- The outcome the email worker publishes for `sampleRequest` when every
attempt fails with "connection refused". -/
def sampleEmailOutcome : Notification :=
  ⟨"email", "hi", 2, "a@b.c", 0, 7, 2, false,
   "Too many failed attempts. Last attempt failed with: failed to send email with following error connection refused"⟩

/-- C1: the code contradicts the claim. Concrete run of the handler on the
valid request `mode=email, message="hi", max_retry_attempts="2"` admitted into
an empty store with id 0, when the broker publish fails: the handler does reply
500 immediately, but the correlation-store entry created for the request is
still present when the handler returns — the early `return` skips the final
`Delete`, so the entry is never deleted. -/
theorem publishFailureLeavesStoreEntry :
    (notificationHandlerPhase1 (fun i => i) 3 "" true ⟨"email", "hi", "2", "a@b.c"⟩
      emptyStore).responded = some (500, "Internal server error") ∧
    (notificationHandlerPhase1 (fun i => i) 3 "" true ⟨"email", "hi", "2", "a@b.c"⟩
      emptyStore).store 0 = some ⟨"email", "hi", 2, "a@b.c", 3, 0, 0, false, ""⟩ :=
  ⟨rfl, rfl⟩

/-- C2 counterexample: after the coordinator has deleted the entry for id 7, a
late outcome event applied via `Update` leaves an entry stored under id 7 —
`Update` is an unconditional map assignment and happily re-creates the deleted
entry, refuting the claim that no subsequent operation leaves one. -/
theorem lateUpdateRecreatesDeletedEntry :
    (NotificationStore.Delete (NotificationStore.Update emptyStore 7 sampleEmailOutcome) 7) 7
      = none ∧
    (NotificationStore.Update
      (NotificationStore.Delete (NotificationStore.Update emptyStore 7 sampleEmailOutcome) 7)
      7 sampleEmailOutcome) 7 = some sampleEmailOutcome :=
  ⟨rfl, rfl⟩

/-- C2 amended: deleting an id removes its entry and `Get` then reads only the
zero-value sentinel, and a second `Delete` is harmless; but a late outcome event
for the same id applied via `Update` unconditionally re-creates an entry under
that id, so an entry can outlive the HTTP request whenever a late update
arrives after the cleanup by the coordinator. -/
theorem deleteThenLateUpdate (s : MessageNotification) (id : UUID) (n : Notification) :
    (NotificationStore.Delete s id) id = none ∧
    (NotificationStore.Delete (NotificationStore.Delete s id) id) id = none ∧
    NotificationStore.Get (NotificationStore.Delete s id) id = zeroNotification ∧
    (NotificationStore.Update (NotificationStore.Delete s id) id n) id = some n := by
  refine ⟨?_, ?_, ?_, ?_⟩ <;>
    simp [NotificationStore.Delete, NotificationStore.Update, NotificationStore.Get, mapSet]

/-- C6: a request whose mode is missing or unsupported, or whose message is
empty, or whose `max_retry_attempts` is present but not an integer, is answered
with HTTP 400 and the handler returns with the store unchanged and nothing
published to the broker. -/
theorem invalidRequestRejectedEarly (gen : Nat → UUID) (now : Nat) (env : String)
    (publishErr : Bool) (form : Form) (s : MessageNotification)
    (h : (form.mode ≠ "email" ∧ form.mode ≠ "sms" ∧ form.mode ≠ "slack") ∨
         form.message = "" ∨
         (form.maxRetryAttempts ≠ "" ∧ goAtoi form.maxRetryAttempts = none)) :
    ∃ body, notificationHandlerPhase1 gen now env publishErr form s =
      ⟨some (400, body), none, s, []⟩ := by
  unfold notificationHandlerPhase1
  by_cases h1 : form.mode = "" ∨ (form.mode ≠ "email" ∧ form.mode ≠ "sms" ∧ form.mode ≠ "slack")
  · rw [if_pos h1]
    exact ⟨_, rfl⟩
  · rw [if_neg h1]
    by_cases h2 : form.message = ""
    · rw [if_pos h2]
      exact ⟨_, rfl⟩
    · rw [if_neg h2]
      rcases h with hmode | hmsg | ⟨hne, ha⟩
      · exact absurd (Or.inr hmode) h1
      · exact absurd hmsg h2
      · rw [if_neg hne, ha]
        exact ⟨_, rfl⟩

theorem invalidRequestRejectedEarly_witness :
    ∃ body, notificationHandlerPhase1 (fun i => i) 3 "" false ⟨"sms", "hi", "2x", ""⟩ emptyStore =
      ⟨some (400, body), none, emptyStore, []⟩ :=
  invalidRequestRejectedEarly (fun i => i) 3 "" false ⟨"sms", "hi", "2x", ""⟩ emptyStore
    (Or.inr (Or.inr ⟨by decide, by decide⟩))

/-- C8: the consume loop of the outcome listener skips a message whose payload fails
to decode — the store is untouched by it and the remaining messages are still
processed — while a successfully decoded message updates the store with that
snapshot (via `ReceiveProcessedNotification`, keyed by its message id). -/
theorem consumeSkipsUndecodable {α : Type} (decode : α → Option Notification)
    (m : α) (ms : List α) (s : MessageNotification) :
    (decode m = none → ConsumeClaim decode (m :: ms) s = ConsumeClaim decode ms s) ∧
    (∀ n, decode m = some n →
      ConsumeClaim decode (m :: ms) s =
        ConsumeClaim decode ms (NotificationStore.Update s n.messageID n)) := by
  constructor
  · intro h
    simp [ConsumeClaim, h]
  · intro n h
    simp [ConsumeClaim, h, ReceiveProcessedNotification]

theorem consumeSkipsUndecodable_witness :
    ConsumeClaim (fun x : Option Notification => x) (none :: [some sampleRequest]) emptyStore =
      ConsumeClaim (fun x : Option Notification => x) [some sampleRequest] emptyStore ∧
    ConsumeClaim (fun x : Option Notification => x) [some sampleRequest] emptyStore =
      ConsumeClaim (fun x : Option Notification => x) []
        (NotificationStore.Update emptyStore sampleRequest.messageID sampleRequest) :=
  ⟨(consumeSkipsUndecodable (fun x : Option Notification => x) none [some sampleRequest]
      emptyStore).1 rfl,
   (consumeSkipsUndecodable (fun x : Option Notification => x) (some sampleRequest) []
      emptyStore).2 sampleRequest rfl⟩

/-- C9: one poll of `GetResults` signals the waiting handler exactly when the
stored snapshot has `IsSent` or a nonempty `FailReason`; `Get` of a missing id
yields the zero-value sentinel, which signals nothing (leaving only the hard
deadline to release the caller). -/
theorem pollSignalsCharacterisation :
    (∀ n : Notification, pollSignals n ≠ [] ↔ (n.isSent = true ∨ n.failReason ≠ "")) ∧
    (∀ n : Notification, n.isSent = true → true ∈ pollSignals n) ∧
    (∀ n : Notification, n.failReason ≠ "" → false ∈ pollSignals n) ∧
    (∀ (s : MessageNotification) (id : UUID), s id = none →
      NotificationStore.Get s id = zeroNotification ∧
      pollSignals (NotificationStore.Get s id) = []) := by
  refine ⟨?_, ?_, ?_, ?_⟩
  · intro n
    rcases hb : n.isSent <;> by_cases hf : n.failReason = "" <;>
      simp [pollSignals, hb, hf]
  · intro n hb
    simp [pollSignals, hb]
  · intro n hf
    simp [pollSignals, hf]
  · intro s id h
    constructor
    · simp [NotificationStore.Get, h]
    · simp [NotificationStore.Get, h, pollSignals, zeroNotification]

theorem pollSignalsCharacterisation_witness :
    (true ∈ pollSignals ⟨"", "", 0, "", 0, 0, 0, true, ""⟩) ∧
    (false ∈ pollSignals ⟨"", "", 0, "", 0, 0, 1, false, "err"⟩) ∧
    (NotificationStore.Get emptyStore 0 = zeroNotification ∧
      pollSignals (NotificationStore.Get emptyStore 0) = []) :=
  ⟨pollSignalsCharacterisation.2.1 ⟨"", "", 0, "", 0, 0, 0, true, ""⟩ rfl,
   pollSignalsCharacterisation.2.2.1 ⟨"", "", 0, "", 0, 0, 1, false, "err"⟩ (by decide),
   pollSignalsCharacterisation.2.2.2 emptyStore 0 rfl⟩

/-- C10 counterexample: when the external `SendSMS` call reports a non-nil
error but its response carries no messages, the error branch of `sendSms`
indexes `Messages[0]` out of range — the function faults instead of
terminating normally, refuting the claim for this attempt result. -/
theorem smsErrorBranchFaultsOnEmptyResponse :
    sendSms ⟨[], some "connection refused"⟩ sampleRequest = none := rfl

/-- C10 amended: for every failing SMS delivery attempt whose response carries
at least one message, `sendSms` terminates normally and returns the
notification not sent, with the attempt counter incremented by one and a
nonempty failure reason; with an empty response slice the error branch faults. -/
theorem smsFailureBranchNormalCases (res : SmsAttempt) (n : Notification) (e : String)
    (he : res.err = some e) (hm : res.messages ≠ []) :
    ∃ n1, sendSms res n = some n1 ∧ n1.isSent = false ∧
      n1.numOfRepetitions = n.numOfRepetitions + 1 ∧ n1.failReason ≠ "" := by
  rcases res with ⟨msgs, err⟩
  rcases msgs with _ | ⟨m, rest⟩
  · exact absurd rfl hm
  · simp only at he
    subst he
    exact ⟨_, rfl, rfl, rfl, strAppend_ne_empty _ _ (by decide)⟩

/-- Step equation of `emailLoop`: successful attempt. -/
theorem emailLoop_step_sent (att : Nat → Option String) (calls fuel : Nat) (n : Notification)
    (hatt : att calls = none) :
    emailLoop att calls (fuel + 1) n =
      ⟨{ n with isSent := true }, [{ n with isSent := true }], calls + 1,
        [{ n with isSent := true }]⟩ := by
  unfold emailLoop
  rw [hatt]
  rfl

/-- Step equation of `emailLoop`: failing attempt that exhausts the retry budget of the caller (`NumOfRepetitions` reaches `MaxRetryAttempts`). -/
theorem emailLoop_step_userStop (att : Nat → Option String) (calls fuel : Nat)
    (n : Notification) (e : String) (hatt : att calls = some e)
    (hc : n.numOfRepetitions + 1 ≥ n.maxRetryAttempts) :
    emailLoop att calls (fuel + 1) n =
      ⟨{ n with
          isSent := false, numOfRepetitions := n.numOfRepetitions + 1,
          failReason := "Too many failed attempts. Last attempt failed with: " ++ emailErrMsg e },
        [{ n with
          isSent := false, numOfRepetitions := n.numOfRepetitions + 1,
          failReason := "Too many failed attempts. Last attempt failed with: " ++ emailErrMsg e }],
        calls + 1,
        [{ n with
            isSent := false, numOfRepetitions := n.numOfRepetitions + 1,
            failReason := emailErrMsg e },
         { n with
            isSent := false, numOfRepetitions := n.numOfRepetitions + 1,
            failReason := "Too many failed attempts. Last attempt failed with: " ++ emailErrMsg e }]⟩ := by
  unfold emailLoop
  rw [hatt]
  dsimp only [sendEmail]
  rw [if_neg (by simp), if_pos (by simpa using hc)]

/-- Step equation of `emailLoop`: failing attempt that hits the internal hard
cap (`NumOfRepetitions` reaches `maxEmailRetries = 5`) before the budget of the caller. -/
theorem emailLoop_step_capStop (att : Nat → Option String) (calls fuel : Nat)
    (n : Notification) (e : String) (hatt : att calls = some e)
    (hc2 : ¬ n.numOfRepetitions + 1 ≥ n.maxRetryAttempts)
    (hc3 : n.numOfRepetitions + 1 = maxEmailRetries) :
    emailLoop att calls (fuel + 1) n =
      ⟨{ n with
          isSent := false, numOfRepetitions := n.numOfRepetitions + 1,
          failReason := "Too many failed attempts. Max number of retries reached. Last attempt failed with: " ++ emailErrMsg e },
        [{ n with
          isSent := false, numOfRepetitions := n.numOfRepetitions + 1,
          failReason := "Too many failed attempts. Max number of retries reached. Last attempt failed with: " ++ emailErrMsg e }],
        calls + 1,
        [{ n with
            isSent := false, numOfRepetitions := n.numOfRepetitions + 1,
            failReason := emailErrMsg e },
         { n with
            isSent := false, numOfRepetitions := n.numOfRepetitions + 1,
            failReason := "Too many failed attempts. Max number of retries reached. Last attempt failed with: " ++ emailErrMsg e }]⟩ := by
  unfold emailLoop
  rw [hatt]
  dsimp only [sendEmail]
  rw [if_neg (by simp), if_neg (by simpa using hc2), if_pos (by simpa using hc3)]

/-- Step equation of `emailLoop`: failing attempt below both bounds — the loop
retries with the updated notification. -/
theorem emailLoop_step_retry (att : Nat → Option String) (calls fuel : Nat)
    (n : Notification) (e : String) (hatt : att calls = some e)
    (hc2 : ¬ n.numOfRepetitions + 1 ≥ n.maxRetryAttempts)
    (hc3 : ¬ n.numOfRepetitions + 1 = maxEmailRetries) :
    emailLoop att calls (fuel + 1) n =
      ⟨(emailLoop att (calls + 1) fuel
          { n with
            isSent := false, numOfRepetitions := n.numOfRepetitions + 1,
            failReason := emailErrMsg e }).final,
       (emailLoop att (calls + 1) fuel
          { n with
            isSent := false, numOfRepetitions := n.numOfRepetitions + 1,
            failReason := emailErrMsg e }).published,
       (emailLoop att (calls + 1) fuel
          { n with
            isSent := false, numOfRepetitions := n.numOfRepetitions + 1,
            failReason := emailErrMsg e }).calls,
       { n with
         isSent := false, numOfRepetitions := n.numOfRepetitions + 1,
         failReason := emailErrMsg e } ::
        (emailLoop att (calls + 1) fuel
          { n with
            isSent := false, numOfRepetitions := n.numOfRepetitions + 1,
            failReason := emailErrMsg e }).states⟩ := by
  conv_lhs => rw [emailLoop]
  rw [hatt]
  dsimp only [sendEmail]
  rw [if_neg (by simp), if_neg (by simpa using hc2), if_neg (by simpa using hc3)]

/-- Helper for C5: along any run of the email retry loop from a state whose
counter satisfies `NumOfRepetitions + 1 ≤ max MaxRetryAttempts 5`, every state
the loop reaches (and hence the final and published values) keeps
`NumOfRepetitions ≤ max MaxRetryAttempts 5`: an attempt is only retried while
the counter is strictly below the caller bound, and each attempt adds one. -/
theorem emailLoop_reps_bound (att : Nat → Option String) (M : Int) :
    ∀ fuel calls n, n.maxRetryAttempts = M →
      n.numOfRepetitions + 1 ≤ max M 5 →
      (emailLoop att calls fuel n).final.numOfRepetitions ≤ max M 5 ∧
      (∀ m ∈ (emailLoop att calls fuel n).states, m.numOfRepetitions ≤ max M 5) ∧
      (∀ m ∈ (emailLoop att calls fuel n).published, m.numOfRepetitions ≤ max M 5) := by
  intro fuel
  induction fuel with
  | zero =>
    intro calls n _ h
    refine ⟨by simpa [emailLoop] using by omega, ?_, ?_⟩ <;> simp [emailLoop]
  | succ fuel ih =>
    intro calls n hM h
    subst hM
    rcases hatt : att calls with _ | e
    · rw [emailLoop_step_sent att calls fuel n hatt]
      refine ⟨?_, ?_, ?_⟩ <;> simp <;> omega
    · by_cases h2 : n.numOfRepetitions + 1 ≥ n.maxRetryAttempts
      · rw [emailLoop_step_userStop att calls fuel n e hatt h2]
        refine ⟨?_, ?_, ?_⟩ <;> simp <;> omega
      · by_cases h3 : n.numOfRepetitions + 1 = maxEmailRetries
        · rw [emailLoop_step_capStop att calls fuel n e hatt h2 h3]
          refine ⟨?_, ?_, ?_⟩ <;> simp <;> omega
        · rw [emailLoop_step_retry att calls fuel n e hatt h2 h3]
          have hrec := ih (calls + 1)
            { n with
              isSent := false, numOfRepetitions := n.numOfRepetitions + 1,
              failReason := emailErrMsg e }
            (by simp) (by simp; omega)
          refine ⟨by simpa using hrec.1, ?_, by simpa using hrec.2.2⟩
          intro m hm
          simp only [List.mem_cons] at hm
          rcases hm with hm | hm
          · subst hm
            simp
            omega
          · exact hrec.2.1 m (by simpa using hm)

/-- C5: for every request entering a delivery worker with a fresh attempt
counter, the counter `NumOfRepetitions` never exceeds
`max(MaxRetryAttempts, 5)` at any point of processing: along the whole email
retry loop (every intermediate state, the final state, every published
outcome), and in the single-attempt sms and slack workers. -/
theorem repetitionsNeverExceedCap (att : Nat → Option String) (resSms : SmsAttempt)
    (resSlack : Option String) (n : Notification) (h0 : n.numOfRepetitions = 0) :
    ((emailService att n).final.numOfRepetitions ≤ max n.maxRetryAttempts 5 ∧
      (∀ m ∈ (emailService att n).states, m.numOfRepetitions ≤ max n.maxRetryAttempts 5) ∧
      (∀ m ∈ (emailService att n).published, m.numOfRepetitions ≤ max n.maxRetryAttempts 5)) ∧
    (∀ m ∈ (slackService resSlack n).2, m.numOfRepetitions ≤ max n.maxRetryAttempts 5) ∧
    (∀ n1 pub, smsService resSms n = some (n1, pub) →
      ∀ m ∈ pub, m.numOfRepetitions ≤ max n.maxRetryAttempts 5) := by
  have hmax : (5 : Int) ≤ max n.maxRetryAttempts 5 := le_max_right _ _
  refine ⟨?_, ?_, ?_⟩
  · exact emailLoop_reps_bound att n.maxRetryAttempts 6 0 n rfl (by omega)
  · rcases resSlack with _ | e <;>
      simp [slackService, sendSlack] <;> omega
  · intro n1 pub hrun m hm
    rcases resSms with ⟨msgs, err⟩
    rcases err with _ | e
    · simp [smsService, sendSms] at hrun
      rcases hrun with ⟨h1, h2⟩
      subst h1
      subst h2
      simp at hm
      subst hm
      simp
      omega
    · rcases msgs with _ | ⟨mm, rest⟩
      · simp [smsService, sendSms] at hrun
      · simp [smsService, sendSms] at hrun
        rcases hrun with ⟨h1, h2⟩
        subst h1
        subst h2
        simp at hm
        subst hm
        simp
        omega

theorem repetitionsNeverExceedCap_witness :
    ((emailService (fun _ => some "connection refused") sampleRequest).final.numOfRepetitions
        ≤ max sampleRequest.maxRetryAttempts 5 ∧
      (∀ m ∈ (emailService (fun _ => some "connection refused") sampleRequest).states,
        m.numOfRepetitions ≤ max sampleRequest.maxRetryAttempts 5) ∧
      (∀ m ∈ (emailService (fun _ => some "connection refused") sampleRequest).published,
        m.numOfRepetitions ≤ max sampleRequest.maxRetryAttempts 5)) ∧
    (∀ m ∈ (slackService (some "boom") sampleRequest).2,
      m.numOfRepetitions ≤ max sampleRequest.maxRetryAttempts 5) ∧
    (∀ n1 pub, smsService ⟨[⟨"4"⟩], some "boom"⟩ sampleRequest = some (n1, pub) →
      ∀ m ∈ pub, m.numOfRepetitions ≤ max sampleRequest.maxRetryAttempts 5) :=
  repetitionsNeverExceedCap (fun _ => some "connection refused") ⟨[⟨"4"⟩], some "boom"⟩
    (some "boom") sampleRequest rfl

theorem leadsWith_append (sub post : List Char) : leadsWith sub (sub ++ post) = true := by
  induction sub with
  | nil => rfl
  | cons a as ih => simp [leadsWith, ih]

theorem subAtAny_here (sub rest : List Char) (h : leadsWith sub rest = true) :
    subAtAny sub rest = true := by
  cases rest with
  | nil => simpa [subAtAny] using h
  | cons c cs => simp [subAtAny, h]

theorem subAtAny_of_split (sub pre post : List Char) :
    subAtAny sub (pre ++ sub ++ post) = true := by
  induction pre with
  | nil => exact subAtAny_here _ _ (leadsWith_append sub post)
  | cons c cs ih =>
    rw [List.cons_append]
    simp only [subAtAny, Bool.or_eq_true]
    exact Or.inr ih

/-- Soundness of the executable substring check with respect to `containsSub`. -/
theorem strHasSub_of_containsSub (s sub : String) (h : containsSub s sub) :
    strHasSub s sub = true := by
  obtain ⟨pre, post, rfl⟩ := h
  have hd : (pre ++ sub ++ post).data = pre.data ++ sub.data ++ post.data := by
    simp [strData_append]
  rw [strHasSub, hd]
  exact subAtAny_of_split sub.data pre.data post.data

theorem not_containsSub_of_check (s sub : String) (h : strHasSub s sub = false) :
    ¬ containsSub s sub := by
  intro hc
  rw [strHasSub_of_containsSub s sub hc] at h
  cases h

/-- Helper for C4: from any point of the email retry loop where every attempt
fails (attempt `k` failing with error text `e k`), with the counter equal to
the number of calls made so far and strictly below `min MaxRetryAttempts 5`,
the loop publishes exactly one terminal outcome, after a total of
`min MaxRetryAttempts 5` calls, not sent, carrying the message id of the request,
whose reason ends with the formatted error of the last attempt. -/
theorem emailLoop_alwaysFail (att : Nat → Option String) (e : Nat → String)
    (hatt : ∀ k, att k = some (e k)) (M : Int) :
    ∀ (fuel calls : Nat) (n : Notification), n.maxRetryAttempts = M →
      n.numOfRepetitions = (calls : Int) →
      (calls : Int) < min M 5 →
      6 - (calls : Int) ≤ (fuel : Int) →
      (emailLoop att calls fuel n).calls = (min M 5).toNat ∧
      ∃ out pre,
        (emailLoop att calls fuel n).published = [out] ∧
        out.isSent = false ∧
        out.messageID = n.messageID ∧
        out.failReason = pre ++ emailErrMsg (e ((min M 5).toNat - 1)) := by
  intro fuel
  induction fuel with
  | zero =>
    intro calls n _ _ hlt hfuel
    exfalso
    simp only [Nat.cast_zero] at hfuel
    omega
  | succ fuel ih =>
    intro calls n hM hreps hlt hfuel
    subst hM
    by_cases h2 : n.numOfRepetitions + 1 ≥ n.maxRetryAttempts
    · rw [emailLoop_step_userStop att calls fuel n (e calls) (hatt calls) h2]
      have hcalls : calls + 1 = (min n.maxRetryAttempts 5).toNat := by omega
      have hidx : (min n.maxRetryAttempts 5).toNat - 1 = calls := by omega
      refine ⟨hcalls, ⟨_, "Too many failed attempts. Last attempt failed with: ", rfl, rfl, rfl, ?_⟩⟩
      rw [hidx]
    · by_cases h3 : n.numOfRepetitions + 1 = maxEmailRetries
      · rw [emailLoop_step_capStop att calls fuel n (e calls) (hatt calls) h2 h3]
        have h5 : maxEmailRetries = (5 : Int) := rfl
        have hcalls : calls + 1 = (min n.maxRetryAttempts 5).toNat := by omega
        have hidx : (min n.maxRetryAttempts 5).toNat - 1 = calls := by omega
        refine ⟨hcalls,
          ⟨_, "Too many failed attempts. Max number of retries reached. Last attempt failed with: ",
            rfl, rfl, rfl, ?_⟩⟩
        rw [hidx]
      · rw [emailLoop_step_retry att calls fuel n (e calls) (hatt calls) h2 h3]
        have h5 : maxEmailRetries = (5 : Int) := rfl
        have hrec := ih (calls + 1)
          { n with
            isSent := false, numOfRepetitions := n.numOfRepetitions + 1,
            failReason := emailErrMsg (e calls) }
          (by simp) (by simp; omega) (by simp; omega) (by simp; omega)
        obtain ⟨hcalls, out, pre, hpub, hsent, hmid, hreason⟩ := hrec
        refine ⟨by simpa using hcalls, ⟨out, pre, by simpa using hpub, hsent, ?_, ?_⟩⟩
        · simpa using hmid
        · simpa using hreason

/-- A sample request routed to the slack worker. -/
def slackSampleRequest : Notification := ⟨"slack", "hi", 2, "", 0, 9, 0, false, ""⟩

/-- C4 counterexample: for the slack channel with every attempt failing (error
text "boom") and a caller budget of 2, the worker publishes its terminal
outcome after a single attempt — not after `min(maxAttempts, cap) = 2`
attempts — and the published failure reason is the constant
"Failed to send Slack with", which contains neither the raw error "boom" nor
the reason `sendSlack` recorded: the claim fails on the slack worker. -/
theorem slackOutcomeDropsAttemptError :
    (slackService (some "boom") slackSampleRequest).2 =
      [⟨"slack", "hi", 2, "", 0, 9, 1, false, "Failed to send Slack with"⟩] ∧
    ¬ containsSub "Failed to send Slack with" "boom" ∧
    ¬ containsSub "Failed to send Slack with" (slackErrMsg "boom") ∧
    (min slackSampleRequest.maxRetryAttempts 5).toNat = 2 :=
  ⟨by decide,
   not_containsSub_of_check _ _ (by decide),
   not_containsSub_of_check _ _ (by decide),
   by decide⟩

/-- C4 amended: with an always-failing delivery attempt, the email worker (for
a caller budget of at least 1, starting from a fresh counter) publishes exactly
one terminal outcome after exactly `min(MaxRetryAttempts, 5)` attempts, whose
failure reason ends with the formatted error of the last attempt, and once the
outcome listener stores that outcome the failure response of the caller carries
exactly that reason; the sms worker makes a single attempt and its published
reason contains the error text of the attempt; the slack worker makes a single
attempt and its published reason is the constant "Failed to send Slack with",
which replaces the recorded error of the attempt. -/
theorem alwaysFailingWorkerOutcomes
    (att : Nat → Option String) (e : Nat → String) (hatt : ∀ k, att k = some (e k))
    (nE : Notification) (hreps : nE.numOfRepetitions = 0) (hM : 1 ≤ nE.maxRetryAttempts)
    (eS : String) (m0 : SmsRespMessage) (msgs : List SmsRespMessage)
    (eK : String) (nS nK : Notification) :
    ((emailService att nE).calls = (min nE.maxRetryAttempts 5).toNat ∧
      ∃ out pre,
        (emailService att nE).published = [out] ∧
        out.isSent = false ∧
        out.failReason = pre ++ emailErrMsg (e ((min nE.maxRetryAttempts 5).toNat - 1)) ∧
        ∀ s : MessageNotification,
          (answerStep (NotificationStore.Update s out.messageID out) out.messageID
              (some false)).2.1 =
            "Notification sending failed after max number of attempts. Notification service error: "
              ++ out.failReason) ∧
    (∃ outS,
      smsService ⟨m0 :: msgs, some eS⟩ nS = some (outS, [outS]) ∧
      outS.isSent = false ∧
      outS.numOfRepetitions = nS.numOfRepetitions + 1 ∧
      containsSub outS.failReason eS) ∧
    (slackService (some eK) nK).2 =
      [⟨nK.mode, nK.message, nK.maxRetryAttempts, nK.recipient, nK.timeStamp, nK.messageID,
        nK.numOfRepetitions + 1, false, "Failed to send Slack with"⟩] := by
  refine ⟨?_, ?_, ?_⟩
  · have h := emailLoop_alwaysFail att e hatt nE.maxRetryAttempts 6 0 nE rfl
      (by simpa using hreps) (by omega) (by simp)
    obtain ⟨hcalls, out, pre, hpub, hsent, _, hreason⟩ := h
    refine ⟨hcalls, out, pre, hpub, hsent, hreason, ?_⟩
    intro s
    simp [answerStep, Get_Update_self]
  · refine ⟨_, rfl, rfl, rfl, ?_⟩
    exact ⟨"failed to send sms with following error ",
      " and status " ++ (m0.status ++ "."), (strAppend_assoc _ _ _).symm⟩
  · rfl

theorem alwaysFailingWorkerOutcomes_witness :
    (((emailService (fun _ => some "boom") sampleRequest).calls
        = (min sampleRequest.maxRetryAttempts 5).toNat ∧
      ∃ out pre,
        (emailService (fun _ => some "boom") sampleRequest).published = [out] ∧
        out.isSent = false ∧
        out.failReason = pre ++
          emailErrMsg ((fun _ => "boom") ((min sampleRequest.maxRetryAttempts 5).toNat - 1)) ∧
        ∀ s : MessageNotification,
          (answerStep (NotificationStore.Update s out.messageID out) out.messageID
              (some false)).2.1 =
            "Notification sending failed after max number of attempts. Notification service error: "
              ++ out.failReason) ∧
    (∃ outS,
      smsService ⟨⟨"4"⟩ :: [], some "sms down"⟩ slackSampleRequest = some (outS, [outS]) ∧
      outS.isSent = false ∧
      outS.numOfRepetitions = slackSampleRequest.numOfRepetitions + 1 ∧
      containsSub outS.failReason "sms down") ∧
    (slackService (some "boom") slackSampleRequest).2 =
      [⟨slackSampleRequest.mode, slackSampleRequest.message,
        slackSampleRequest.maxRetryAttempts, slackSampleRequest.recipient,
        slackSampleRequest.timeStamp, slackSampleRequest.messageID,
        slackSampleRequest.numOfRepetitions + 1, false, "Failed to send Slack with"⟩]) :=
  alwaysFailingWorkerOutcomes (fun _ => some "boom") (fun _ => "boom") (fun _ => rfl)
    sampleRequest rfl (by decide) "sms down" ⟨"4"⟩ [] "boom" slackSampleRequest
    slackSampleRequest

/-- C3: for `mode=email, message="hi", max_retry_attempts=2` with every
delivery attempt failing, the email worker calls `sendEmail` exactly twice and
publishes the single terminal outcome `sampleEmailOutcome`; once the outcome
listener has stored it, the poll signals failure and the handler answers with
HTTP 408 whose body mentions "Too many failed attempts". -/
theorem emailRetryTwiceScenario :
    (emailService (fun _ => some "connection refused") sampleRequest).calls = 2 ∧
    (emailService (fun _ => some "connection refused") sampleRequest).published
      = [sampleEmailOutcome] ∧
    sampleEmailOutcome.isSent = false ∧
    strHasSub sampleEmailOutcome.failReason "Too many failed attempts" = true ∧
    pollSignals (NotificationStore.Get
      (NotificationStore.Update emptyStore 7 sampleEmailOutcome) 7) = [false] ∧
    (answerStep (NotificationStore.Update emptyStore 7 sampleEmailOutcome) 7 (some false)).1
      = 408 ∧
    strHasSub
      (answerStep (NotificationStore.Update emptyStore 7 sampleEmailOutcome) 7 (some false)).2.1
      "Too many failed attempts" = true := by
  refine ⟨rfl, by decide, rfl, by decide, by decide, rfl, by decide⟩

/-- Helper for C7: full behavioural specification of the collision-retry loop of
`Add`, for any starting attempt index and remaining fuel. -/
theorem addLoop_spec (gen : Nat → UUID) (now : Nat) (s : MessageNotification)
    (n : Notification) :
    ∀ fuel attempt,
      (∀ id, (NotificationStore.addLoop gen now s n attempt fuel).1 = some id →
        s id = none ∧
        (NotificationStore.addLoop gen now s n attempt fuel).2 id =
          some { n with timeStamp := now, messageID := id } ∧
        ∀ k, k ≠ id → (NotificationStore.addLoop gen now s n attempt fuel).2 k = s k) ∧
      ((NotificationStore.addLoop gen now s n attempt fuel).1 = none →
        (NotificationStore.addLoop gen now s n attempt fuel).2 = s ∧
        ∀ i, attempt ≤ i → i < attempt + fuel → s (gen i) ≠ none) := by
  intro fuel
  induction fuel with
  | zero =>
    intro attempt
    refine ⟨fun id h => ?_, fun _ => ⟨rfl, fun i h1 h2 => ?_⟩⟩
    · simp [NotificationStore.addLoop] at h
    · omega
  | succ fuel ih =>
    intro attempt
    rcases hs : s (gen attempt) with _ | v
    · constructor
      · intro id h
        have hid : gen attempt = id := by
          simpa [NotificationStore.addLoop, hs] using h
        subst hid
        refine ⟨hs, ?_, ?_⟩
        · simp [NotificationStore.addLoop, hs, mapSet_self]
        · intro k hk
          simp [NotificationStore.addLoop, hs, mapSet_other s _ k _ hk]
      · intro h
        simp [NotificationStore.addLoop, hs] at h
    · have hstep : NotificationStore.addLoop gen now s n attempt (fuel + 1) =
          NotificationStore.addLoop gen now s n (attempt + 1) fuel := by
        simp [NotificationStore.addLoop, hs]
      rw [hstep]
      refine ⟨(ih (attempt + 1)).1, fun h => ?_⟩
      obtain ⟨hst, hrange⟩ := (ih (attempt + 1)).2 h
      refine ⟨hst, fun i h1 h2 => ?_⟩
      rcases Nat.eq_or_lt_of_le h1 with heq | hlt
      · rw [← heq, hs]
        exact fun hc => by cases hc
      · exact hrange i hlt (by omega)

/-- C7: `Add` tries the candidate ids `gen 0, ..., gen 500` (501 draws, the
source bound `maxChecks = 500`). On success the returned id was not already
present, the stored snapshot is the request with `MessageID` and `TimeStamp`
set, and every other entry is unchanged; if every candidate collides, `Add`
returns an error and the store is unchanged. -/
theorem addFreshOrExhausted (gen : Nat → UUID) (now : Nat) (s : MessageNotification)
    (n : Notification) :
    (∀ id, (NotificationStore.Add gen now s n).1 = some id →
      s id = none ∧
      (NotificationStore.Add gen now s n).2 id =
        some { n with timeStamp := now, messageID := id } ∧
      ∀ k, k ≠ id → (NotificationStore.Add gen now s n).2 k = s k) ∧
    ((NotificationStore.Add gen now s n).1 = none →
      (NotificationStore.Add gen now s n).2 = s ∧
      ∀ i, i ≤ 500 → s (gen i) ≠ none) := by
  have h := addLoop_spec gen now s n 501 0
  refine ⟨h.1, fun hn => ?_⟩
  obtain ⟨hst, hrange⟩ := h.2 hn
  exact ⟨hst, fun i hi => hrange i (Nat.zero_le i) (by omega)⟩

set_option maxRecDepth 4000 in
theorem addFreshOrExhausted_witness :
    (emptyStore 0 = none ∧
      (NotificationStore.Add (fun i => i) 3 emptyStore sampleRequest).2 0 =
        some { sampleRequest with timeStamp := 3, messageID := 0 } ∧
      (NotificationStore.Add (fun i => i) 3 emptyStore sampleRequest).2 1 = emptyStore 1) ∧
    ((NotificationStore.Add (fun _ => 0) 3 (mapSet emptyStore 0 sampleRequest)
        sampleRequest).2 = mapSet emptyStore 0 sampleRequest ∧
      mapSet emptyStore 0 sampleRequest 0 ≠ none) := by
  have h1 := (addFreshOrExhausted (fun i => i) 3 emptyStore sampleRequest).1 0 rfl
  have h2 := (addFreshOrExhausted (fun _ => 0) 3 (mapSet emptyStore 0 sampleRequest)
    sampleRequest).2 rfl
  exact ⟨⟨h1.1, h1.2.1, h1.2.2 1 (by decide)⟩, ⟨h2.1, h2.2 0 (by decide)⟩⟩

theorem smsFailureBranchNormalCases_witness :
    ∃ n1, sendSms ⟨[⟨"4"⟩], some "connection refused"⟩ sampleRequest = some n1 ∧
      n1.isSent = false ∧
      n1.numOfRepetitions = sampleRequest.numOfRepetitions + 1 ∧ n1.failReason ≠ "" :=
  smsFailureBranchNormalCases ⟨[⟨"4"⟩], some "connection refused"⟩ sampleRequest
    "connection refused" rfl (by decide)
